import Mathlib

/-!
Verification of the DLP recognizer core against its specification.

The definitions below are shallow embeddings of the Python functions in
`src/predefined_recognizers/`.  Text is modelled as `List Char`, Python
floats as exact rationals, machine integers as `Nat`, and operations that
can raise (`int(...)` conversions) as `Option`-valued parsers whose `none`
case corresponds to the exception being caught by the surrounding
`try/except`.
-/

namespace DLP

/-- Result record of a recognizer, mirroring `presidio` `RecognizerResult`
fields used by the code: `start`, `end` (called `stop` here because `end`
is a Lean keyword) and `score`. -/
structure RecognizerResult where
  start : Nat
  stop : Nat
  score : Rat
deriving DecidableEq, Repr

/-! ## Overlap resolver
Embedding of `ICD10Recognizer._filter_overlaps`
(`hipaa_and_hitech_ICD10_recognizer.py`, lines 140-150):
`results.sort(key=lambda x: (x.start, -x.score))` followed by a greedy
pass keeping `res` iff `res.start >= last_end`, `last_end` starting at 0.
-/

/-- Sort relation realised by the Python key `(x.start, -x.score)`:
lexicographic, start ascending then score descending. -/
def sortKeyRel (a b : RecognizerResult) : Prop :=
  a.start < b.start ∨ (a.start = b.start ∧ b.score ≤ a.score)

instance : DecidableRel sortKeyRel := fun a b => by
  unfold sortKeyRel; infer_instance

instance : IsTotal RecognizerResult sortKeyRel := by
  constructor
  intro a b
  unfold sortKeyRel
  rcases Nat.lt_trichotomy a.start b.start with h | h | h
  · exact Or.inl (Or.inl h)
  · rcases le_total b.score a.score with hs | hs
    · exact Or.inl (Or.inr ⟨h, hs⟩)
    · exact Or.inr (Or.inr ⟨h.symm, hs⟩)
  · exact Or.inr (Or.inl h)

instance : IsTrans RecognizerResult sortKeyRel := by
  constructor
  intro a b c hab hbc
  unfold sortKeyRel at *
  rcases hab with h1 | ⟨h1, s1⟩
  · rcases hbc with h2 | ⟨h2, _⟩
    · exact Or.inl (h1.trans h2)
    · exact Or.inl (h2 ▸ h1)
  · rcases hbc with h2 | ⟨h2, s2⟩
    · exact Or.inl (h1 ▸ h2)
    · exact Or.inr ⟨h1.trans h2, s2.trans s1⟩

/-- The greedy acceptance loop of `_filter_overlaps`: accept `res` iff
`last_end <= res.start` (Python `res.start >= last_end`), then update
`last_end` to the `end` of the accepted result. -/
def greedyAccept : Nat → List RecognizerResult → List RecognizerResult
  | _, [] => []
  | lastEnd, r :: rs =>
    if lastEnd ≤ r.start then r :: greedyAccept r.stop rs
    else greedyAccept lastEnd rs

/-- `_filter_overlaps`: stable sort by `(start, -score)` then greedy scan
with `last_end = 0`. -/
def filterOverlaps (results : List RecognizerResult) : List RecognizerResult :=
  greedyAccept 0 (List.insertionSort sortKeyRel results)

theorem greedyAccept_sublist (e : Nat) (l : List RecognizerResult) :
    (greedyAccept e l).Sublist l := by
  induction l generalizing e with
  | nil => simp [greedyAccept]
  | cons r rs ih =>
    unfold greedyAccept
    by_cases h : e ≤ r.start
    · simpa [h] using (ih r.stop).cons₂ r
    · simpa [h] using (ih e).cons r

theorem greedyAccept_pairwise (e : Nat) (l : List RecognizerResult)
    (hl : l.Pairwise (fun a b => a.start ≤ b.start)) :
    (greedyAccept e l).Pairwise (fun a b => a.stop ≤ b.start) ∧
      ∀ r ∈ greedyAccept e l, e ≤ r.start := by
  induction l generalizing e with
  | nil => simp [greedyAccept]
  | cons r rs ih =>
    rcases List.pairwise_cons.mp hl with ⟨hr, hrs⟩
    unfold greedyAccept
    by_cases h : e ≤ r.start
    · simp only [if_pos h]
      obtain ⟨ihp, ihm⟩ := ih r.stop hrs
      refine ⟨List.pairwise_cons.mpr ⟨ihm, ihp⟩, ?_⟩
      intro x hx
      rcases List.mem_cons.mp hx with rfl | hx
      · exact h
      · exact le_trans h (hr x ((greedyAccept_sublist _ _).mem hx))
    · simp only [if_neg h]
      obtain ⟨ihp, ihm⟩ := ih e hrs
      exact ⟨ihp, ihm⟩

theorem greedyAccept_eq_self (e : Nat) (l : List RecognizerResult)
    (hl : l.Pairwise (fun a b => a.stop ≤ b.start))
    (he : ∀ r ∈ l, e ≤ r.start) :
    greedyAccept e l = l := by
  induction l generalizing e with
  | nil => rfl
  | cons r rs ih =>
    rcases List.pairwise_cons.mp hl with ⟨hr, hrs⟩
    unfold greedyAccept
    rw [if_pos (he r (List.mem_cons_self r rs))]
    rw [ih r.stop hrs hr]

theorem filterOverlaps_pairwise_core (l : List RecognizerResult) :
    (filterOverlaps l).Pairwise (fun a b => a.stop ≤ b.start) := by
  have hs : (List.insertionSort sortKeyRel l).Pairwise
      (fun a b : RecognizerResult => a.start ≤ b.start) := by
    refine (List.sorted_insertionSort sortKeyRel l).imp ?_
    intro a b hab
    rcases hab with h | ⟨h, _⟩
    · exact Nat.le_of_lt h
    · exact Nat.le_of_eq h
  exact (greedyAccept_pairwise 0 _ hs).1

/-- C1: the overlap resolver output is pairwise non-overlapping: for any
two findings in the output, one ends at or before the other starts. -/
theorem filterOverlaps_nonoverlapping (l : List RecognizerResult) :
    (filterOverlaps l).Pairwise
      (fun a b => a.stop ≤ b.start ∨ b.stop ≤ a.start) :=
  (filterOverlaps_pairwise_core l).imp fun h => Or.inl h

/-- C7: the overlap resolver is idempotent: applying `_filter_overlaps`
to its own output returns the output unchanged. -/
theorem filterOverlaps_idempotent (l : List RecognizerResult) :
    filterOverlaps (filterOverlaps l) = filterOverlaps l := by
  have hsub : (filterOverlaps l).Sublist (List.insertionSort sortKeyRel l) :=
    greedyAccept_sublist 0 _
  have hsorted : List.Sorted sortKeyRel (filterOverlaps l) :=
    List.Pairwise.sublist hsub (List.sorted_insertionSort sortKeyRel l)
  have hcore := filterOverlaps_pairwise_core l
  show greedyAccept 0 (List.insertionSort sortKeyRel (filterOverlaps l)) = _
  rw [hsorted.insertionSort_eq]
  exact greedyAccept_eq_self 0 _ hcore (fun r _ => Nat.zero_le r.start)

/-! ## Luhn check
Embedding of `DatotelCreditDebitCardRecognizer.luhn_check`
(`credit_debit_card_numbers_recognizer.py`, lines 73-90): strip
non-digits, set `parity = len(digits) % 2`, double (and subtract 9 when
above 9) every digit whose left-to-right index `i` satisfies
`i % 2 == parity`, and accept iff the sum is divisible by 10.
-/

/-- Python `re.sub(r'\D', '', s)` followed by `int` on each character:
the digit values of the digit characters of `s`, in order. -/
def pyDigits (s : List Char) : List Nat :=
  (s.filter Char.isDigit).map (fun c => c.toNat - 48)

/-- Doubling step of the loop body: `d *= 2; if d > 9: d -= 9`. -/
def luhnDouble (d : Nat) : Nat :=
  if d * 2 > 9 then d * 2 - 9 else d * 2

/-- The accumulation loop `for i, d in enumerate(digits)` with running
index `i` and fixed `parity`. -/
def luhnFoldAux (i parity : Nat) : List Nat → Nat
  | [] => 0
  | d :: rest =>
    (if i % 2 = parity then luhnDouble d else d) + luhnFoldAux (i + 1) parity rest

/-- `luhn_check`: empty digit strings are rejected, otherwise the
checksum must be divisible by 10. -/
def luhn_check (s : List Char) : Bool :=
  if pyDigits s = [] then false
  else luhnFoldAux 0 ((pyDigits s).length % 2) (pyDigits s) % 10 == 0

/-- The specification formulation: traverse the digits right to left
(index `j` counts the 0-based distance from the end) and double every
digit at odd distance. -/
def luhnSpecFoldAux (j : Nat) : List Nat → Nat
  | [] => 0
  | d :: rest =>
    (if j % 2 = 1 then luhnDouble d else d) + luhnSpecFoldAux (j + 1) rest

/-- Validity in the specification formulation. -/
def luhnSpecCheck (s : List Char) : Bool :=
  if pyDigits s = [] then false
  else luhnSpecFoldAux 0 (pyDigits s).reverse % 10 == 0

theorem luhnFoldAux_append (xs : List Nat) (d : Nat) :
    ∀ i p, luhnFoldAux i p (xs ++ [d]) =
      luhnFoldAux i p xs + (if (i + xs.length) % 2 = p then luhnDouble d else d) := by
  induction xs with
  | nil => intro i p; simp [luhnFoldAux]
  | cons x xs ih =>
    intro i p
    simp only [List.cons_append, luhnFoldAux, List.length_cons, List.append_eq]
    rw [ih (i + 1) p]
    have h : i + 1 + xs.length = i + (xs.length + 1) := by omega
    rw [h, Nat.add_assoc]

theorem luhnFoldAux_eq_spec (ds : List Nat) :
    ∀ j, luhnFoldAux 0 ((ds.length + j) % 2) ds = luhnSpecFoldAux j ds.reverse := by
  induction ds using List.reverseRecOn with
  | nil => intro j; simp [luhnFoldAux, luhnSpecFoldAux]
  | append_singleton xs d ih =>
    intro j
    rw [luhnFoldAux_append]
    simp only [List.reverse_append, List.reverse_singleton, List.singleton_append,
      luhnSpecFoldAux, List.length_append, List.length_singleton]
    have h1 : (xs.length + 1 + j) % 2 = (xs.length + (j + 1)) % 2 := by omega
    have h2 : ((0 + xs.length) % 2 = (xs.length + (j + 1)) % 2) ↔ (j % 2 = 1) := by omega
    rw [h1, ih (j + 1), if_congr h2 rfl rfl, Nat.add_comm]

/-- C3: the Luhn validator is the right-to-left double-at-odd-distance
mod-10 check of the specification, and it accepts `4532015112830366`
while rejecting `4532015112830367`. -/
theorem luhn_check_correct :
    (∀ s : List Char, luhn_check s = luhnSpecCheck s) ∧
      luhn_check "4532015112830366".data = true ∧
      luhn_check "4532015112830367".data = false := by
  refine ⟨?_, by decide, by decide⟩
  intro s
  by_cases h : pyDigits s = []
  · simp [luhn_check, luhnSpecCheck, h]
  · have hmain := luhnFoldAux_eq_spec (pyDigits s) 0
    rw [Nat.add_zero] at hmain
    simp only [luhn_check, luhnSpecCheck, if_neg h, hmain]

/-! ## EU IBAN validator
Embedding of `EU_IBANRecognizer` (`eu_iban_numbers_recognizer.py`).
`_is_valid_checksum` (lines 87-108) first checks the length against the
per-country `IBAN_LENGTHS` table, then rearranges `iban[4:] + iban[:4]`,
maps every letter `ch` to the decimal digits of `int(ch, 36)` and keeps
digit characters, and finally tests `int(numeric_iban) % 97 == 1`.  Any
exception inside the `try` (an unconvertible character, or an empty
numeral) is caught and yields `False`; the `Option` layer models those
exception paths.  The bank-code block in the source only logs and `pass`es,
so it has no effect on the result and is not reproduced. -/

/-- Per-country expected lengths (`EU_IBANRecognizer.IBAN_LENGTHS`). -/
def IBAN_LENGTHS : List (String × Nat) :=
  [("AT", 20), ("BE", 16), ("BG", 22), ("HR", 21), ("CY", 28), ("CZ", 24),
   ("DK", 18), ("EE", 20), ("FI", 18), ("FR", 27), ("DE", 22), ("GR", 27),
   ("HU", 28), ("IE", 22), ("IT", 27), ("LV", 21), ("LT", 20), ("LU", 20),
   ("MT", 31), ("NL", 18), ("PL", 28), ("PT", 25), ("RO", 24), ("SK", 24),
   ("SI", 19), ("ES", 24), ("SE", 24), ("GB", 22)]

/-- Decimal digits contributed by one character of the rearranged IBAN:
digits stay themselves, ASCII letters become the two digits of
`int(ch, 36)` (`A`/`a` = 10 … `Z`/`z` = 35); any other character makes
the final `int(...)` conversion raise, modelled as `none`. -/
def ibanCharVal (c : Char) : Option (List Nat) :=
  if c.isDigit then some [c.toNat - 48]
  else if 'A' ≤ c ∧ c ≤ 'Z' then some [(c.toNat - 55) / 10, (c.toNat - 55) % 10]
  else if 'a' ≤ c ∧ c ≤ 'z' then some [(c.toNat - 87) / 10, (c.toNat - 87) % 10]
  else none

/-- The value of `int(numeric_iban)` where `numeric_iban` is the digit
string built from `l`; `none` when the conversion raises (a character
outside `[0-9A-Za-z]`, or an empty string). -/
def charsToNumeral (l : List Char) : Option Nat :=
  match l.mapM ibanCharVal with
  | none => none
  | some dss =>
    if dss.flatten = [] then none
    else some (dss.flatten.foldl (fun a d => a * 10 + d) 0)

/-- `_has_valid_length`: look up `iban[:2]` in the table and compare. -/
def hasValidLength (iban : List Char) : Bool :=
  match List.lookup (String.mk (iban.take 2)) IBAN_LENGTHS with
  | none => false
  | some expected => iban.length == expected

/-- `_is_valid_checksum`: length gate, rearrangement, then MOD-97-1. -/
def is_valid_checksum (iban : List Char) : Bool :=
  if hasValidLength iban then
    match charsToNumeral (iban.drop 4 ++ iban.take 4) with
    | none => false
    | some n => n % 97 == 1
  else false

/-- Python `re.sub(r"\s+", "", s)`: remove all whitespace. -/
def removeWs (l : List Char) : List Char :=
  l.filter (fun c => !c.isWhitespace)

/-- Python slice `l[lo:hi]` for non-negative bounds. -/
def pySlice (lo hi : Nat) (l : List Char) : List Char :=
  (l.take hi).drop lo

/-- `EU_IBANRecognizer.analyze` (lines 55-69), with the candidate list
produced by the upstream pattern matcher passed in as `results`: every
result keeps its span and gets score 1.0 when the whitespace-stripped
matched text passes `_is_valid_checksum`, else score 0.0. -/
def euIbanAnalyze (text : List Char) (results : List RecognizerResult) :
    List RecognizerResult :=
  results.map fun r =>
    { r with score :=
        if is_valid_checksum (removeWs (pySlice r.start r.stop text)) then 1 else 0 }

/-- C4 (amended): `_is_valid_checksum` accepts exactly the strings whose
length matches the per-country table and whose rearranged letter-mapped
numeral is congruent to 1 mod 97; `GB29NWBK60161331926819` is accepted. -/
theorem iban_checksum_characterization :
    (∀ s : List Char,
        is_valid_checksum s = true ↔
          hasValidLength s = true ∧
            ∃ n, charsToNumeral (s.drop 4 ++ s.take 4) = some n ∧ n % 97 = 1) ∧
      is_valid_checksum "GB29NWBK60161331926819".data = true := by
  refine ⟨?_, by decide⟩
  intro s
  unfold is_valid_checksum
  cases hval : hasValidLength s with
  | false => simp
  | true =>
    simp only [if_true]
    cases hnum : charsToNumeral (s.drop 4 ++ s.take 4) with
    | none => simp
    | some n => simp [beq_iff_eq]

/-- C4 (counterexample): the claim "valid iff numeral mod 97 == 1" fails
on `NO9386011117947`, a string whose rearranged numeral is congruent to
1 mod 97 but which the validator rejects (its country code is not in the
length table). -/
theorem iban_mod97_not_sufficient :
    is_valid_checksum "NO9386011117947".data = false ∧
      (charsToNumeral ("NO9386011117947".data.drop 4 ++
        "NO9386011117947".data.take 4)).map (fun n => n % 97) = some 1 := by
  constructor
  · decide
  · decide

/-- C10: `analyze` of the EU IBAN recognizer keeps every candidate (none
are removed) and assigns each a score of exactly 1.0 when the
whitespace-stripped matched span passes `_is_valid_checksum` and exactly
0.0 otherwise. -/
theorem euIban_scores (text : List Char) (results : List RecognizerResult) :
    (euIbanAnalyze text results).length = results.length ∧
      ∀ r ∈ euIbanAnalyze text results,
        (is_valid_checksum (removeWs (pySlice r.start r.stop text)) = true ∧
            r.score = 1) ∨
          (is_valid_checksum (removeWs (pySlice r.start r.stop text)) = false ∧
            r.score = 0) := by
  constructor
  · simp [euIbanAnalyze]
  · intro r hr
    rcases List.mem_map.mp hr with ⟨r0, _, rfl⟩
    by_cases h : is_valid_checksum (removeWs (pySlice r0.start r0.stop text)) = true
    · exact Or.inl ⟨h, by simp [h]⟩
    · refine Or.inr ⟨Bool.not_eq_true _ ▸ h, by simp [h]⟩

/-- Witness for C10 at a concrete text and candidate list. -/
theorem euIban_scores_witness :
    (is_valid_checksum (removeWs (pySlice 5 27 "IBAN GB29NWBK60161331926819".data)) = true ∧
        (⟨5, 27, 1⟩ : RecognizerResult).score = 1) ∨
      (is_valid_checksum (removeWs (pySlice 5 27 "IBAN GB29NWBK60161331926819".data)) = false ∧
        (⟨5, 27, 1⟩ : RecognizerResult).score = 0) :=
  (euIban_scores "IBAN GB29NWBK60161331926819".data [⟨5, 27, 1/2⟩]).2
    ⟨5, 27, 1⟩ (by decide)

/-! ## New Zealand IRD number validator and scorer
Embedding of `NewZealandInlandRevenueDepartmentNumberRecognizer`
(`newzealand_Inland_revenue_department_number_recognizer.py`):
`_calculate_score` (lines 91-106) and `_is_valid_ird_checksum`
(lines 111-156). -/

/-- `_calculate_score`: the four-branch scoring rule.  The
`pattern_score` argument is accepted but unused, as in the source. -/
def calculateScore (has_context is_valid_checksum : Bool) (_pattern_score : Rat) : Rat :=
  if has_context && is_valid_checksum then 1
  else if !has_context && is_valid_checksum then 8/10
  else if has_context && !is_valid_checksum then 3/10
  else 1/10

/-- `int` of a string of digit characters. -/
def digitsVal (l : List Char) : Nat :=
  l.foldl (fun a c => a * 10 + (c.toNat - 48)) 0

/-- The known invalid/test SSNs of `_check_ssn_validity`. -/
def knownInvalidSsns : List String :=
  ["123456789",
   "111111111", "222222222", "333333333", "444444444", "555555555",
   "666666666", "777777777", "888888888", "999999999", "000000000",
   "123454321", "112233445", "111223333", "123121234",
   "078051120",
   "219099999", "457555462"]

/-- The consecutive-sequence patterns of `_check_ssn_validity`. -/
def ssnSequences : List String :=
  ["012345678", "123456789", "234567890", "345678901",
   "456789012", "567890123", "678901234", "789012345",
   "890123456", "901234567", "987654321", "876543210",
   "765432109", "654321098", "543210987", "432109876",
   "321098765", "210987654", "109876543"]

/-- `_check_ssn_validity`: the ternary SSA validator, returning the same
strings as the source: `"valid"`, `"suspicious"` or `"invalid"`. -/
def checkSsnValidity (pattern_text : List Char) : String :=
  let only_digits := pattern_text.filter Char.isDigit
  if only_digits.length ≠ 9 then "invalid"
  else
    let area := only_digits.take 3
    let group := (only_digits.drop 3).take 2
    let serial := only_digits.drop 5
    if String.mk only_digits ∈ knownInvalidSsns then "invalid"
    else if ¬(1 ≤ digitsVal area ∧ digitsVal area ≤ 899) ∨ digitsVal area = 666 then
      "invalid"
    else if ¬(1 ≤ digitsVal group ∧ digitsVal group ≤ 99) then "invalid"
    else if ¬(1 ≤ digitsVal serial ∧ digitsVal serial ≤ 9999) then "invalid"
    else if only_digits.dedup.length = 1 then "invalid"
    else if String.mk only_digits ∈ ssnSequences then "invalid"
    else if only_digits.take 3 = ((only_digits.drop 3).take 3) ∧
        (only_digits.drop 3).take 3 = (only_digits.drop 6).take 3 then "invalid"
    else if only_digits.dedup.length ≤ 3 then "suspicious"
    else if String.mk area ∈ ["123", "111", "222", "333", "444", "555",
          "666", "777", "888", "999"] ∧
        String.mk group ∈ ["45", "11", "22", "33", "44", "55", "66", "77",
          "88", "99"] ∧
        String.mk serial ∈ ["6789", "1111", "2222", "3333", "4444", "5555",
          "6666", "7777", "8888", "9999"] then "suspicious"
    else "valid"

/-- The scenario classification of `analyze` (lines 283-296). -/
def cardScenario (has_any_card has_any_ssn has_valid_card has_valid_ssn : Bool) :
    String :=
  if has_any_card && has_any_ssn && has_valid_card && has_valid_ssn then
    "both_present_valid"
  else if has_any_card && !has_any_ssn then "only_card"
  else if has_any_ssn && !has_any_card then "only_ssn"
  else if has_any_card && has_any_ssn && (!has_valid_card || !has_valid_ssn) then
    "both_present_one_invalid"
  else "unknown"

/-- Python `round(x, 2)` (round to nearest, written with an explicit
floor so that it evaluates; all scores in the table are exact
two-decimal values, where every rounding convention agrees). -/
def round2 (q : Rat) : Rat :=
  (((q * 100 + 1/2).floor : Int) : Rat) / 100

/-- The per-result score assigned by `analyze` (lines 311-363), already
rounded to two decimals as by `round(score, 2)`. -/
def cardScore (scenario : String) (has_context is_valid : Bool) : Rat :=
  round2 <|
    if scenario = "both_present_valid" then
      if has_context && is_valid then 9/10
      else if !has_context && is_valid then 75/100
      else 6/10
    else if scenario = "only_card" then
      if has_context && is_valid then 65/100
      else if !has_context && is_valid then 6/10
      else 1/2
    else if scenario = "only_ssn" then
      if has_context && is_valid then 65/100
      else if !has_context && is_valid then 6/10
      else 1/2
    else if scenario = "both_present_one_invalid" then
      if has_context && is_valid then 65/100
      else if !has_context && is_valid then 6/10
      else 1/2
    else 1/2

/-! ## US SSN recognizer
Embedding of `UsSsnRecognizer` (`us_ssn_recognizer.py`): the context
window check `_has_context` (lines 54-59), the score adjustment of
`analyze` (lines 46-50) and `invalidate_result` (lines 61-83). -/

/-- Lowercasing a string, character by character (`str.lower`). -/
def strLower (l : List Char) : List Char :=
  l.map Char.toLower

/-- Python substring membership `needle in haystack`. -/
def containsSub (haystack needle : List Char) : Bool :=
  (List.range (haystack.length + 1)).any
    (fun i => (haystack.drop i).take needle.length == needle)

/-- `UsSsnRecognizer.CONTEXT`. -/
def US_SSN_CONTEXT : List String :=
  ["social security number", "social security", "ssn", "ss#", "ssn#",
   "security number", "patient social security number", "patient ssn",
   "patient\x27s ssn", "patient"]

/-- `_has_context` with its hard-coded `window_size = 50`: the window is
`text[max(0, start-50) : min(len(text), end+50)]` and context is found
when any keyword occurs (case-insensitively) inside it. -/
def usSsnHasContext (text : List Char) (start stop : Nat) : Bool :=
  let window := pySlice (start - 50) (min text.length (stop + 50)) text
  US_SSN_CONTEXT.any fun w => containsSub (strLower window) (strLower w.data)

/-- Python `min(a, b)`. -/
def pyMin (a b : Rat) : Rat :=
  if a ≤ b then a else b

/-- The score update of `UsSsnRecognizer.analyze`: boost by 0.4 (capped
at 1.0) with context, halve without. -/
def usSsnAdjustScore (score : Rat) (has_context : Bool) : Rat :=
  if has_context then pyMin (score + 4/10) 1 else score * (1/2)

/-- `invalidate_result`: `True` means the match is invalidated. -/
def invalidateResult (pattern_text : List Char) : Bool :=
  let only_digits := pattern_text.filter Char.isDigit
  if only_digits.length ≠ 9 then true
  else if (match only_digits with
      | [] => true
      | c :: _ => only_digits.all (fun d => d == c)) then true
  else if String.mk (only_digits.take 3) ∈ ["000", "666", "900"] ∨
      String.mk ((only_digits.drop 3).take 2) = "00" ∨
      String.mk (only_digits.drop 5) = "0000" then true
  else if String.mk only_digits ∈ ["123456789", "987654320", "078051120"] then true
  else false

/-- C2 (counterexample): the four-quadrant rule table is not followed by
every recognizer.  In the credit/debit card recognizer, a Luhn-valid
card with context keywords present, in the scenario where cards but no
SSNs were found, scores 0.65 — not in the high band (>0.8) the claim
requires for Valid-with-context. -/
theorem card_score_breaks_quadrant_table :
    cardScore (cardScenario true false true false) true true = 13/20 ∧
      ¬((13 : Rat)/20 > 8/10) := by
  constructor
  · show round2 (65/100) = 13/20
    norm_num [round2, Rat.floor]
  · norm_num

/-- C2 (amended): the NZ IRD recognizer's `_calculate_score` does follow
the four-quadrant shape — 1.0 (valid, context) in the high band,
0.8 (valid, no context) above 0.7, 0.3 (invalid, context) below 0.7 and
0.1 (invalid, no context) below 0.5 — for every incoming pattern score;
but the credit/debit card recognizer deviates, giving 0.65 to a valid
in-context card when no SSN co-occurs. -/
theorem quadrant_table_nz_ird_only :
    (∀ ps : Rat,
        calculateScore true true ps = 1 ∧ (8 : Rat)/10 < 1 ∧
        calculateScore false true ps = 8/10 ∧ (7 : Rat)/10 < 8/10 ∧
        calculateScore true false ps = 3/10 ∧ (3 : Rat)/10 < 7/10 ∧
        calculateScore false false ps = 1/10 ∧ (1 : Rat)/10 < 1/2) ∧
      cardScore (cardScenario true false true false) true true = 13/20 := by
  constructor
  · intro ps
    refine ⟨rfl, by norm_num, rfl, by norm_num, rfl, by norm_num, rfl, by norm_num⟩
  · show round2 (65/100) = 13/20
    norm_num [round2, Rat.floor]

/-- C6 (counterexample): both SSA-style validators in the source reject
`123-45-6789` as a known test SSN: `_check_ssn_validity` returns
`"invalid"` (not `"valid"`) and `invalidate_result` returns `True`, so
the claimed Finding with validity `Valid` is impossible. -/
theorem test_ssn_is_invalid :
    checkSsnValidity "123-45-6789".data = "invalid" ∧
      invalidateResult "123-45-6789".data = true := by
  constructor
  · decide
  · decide

/-- C6 (amended): on `"My SSN is 123-45-6789"` the matched span
`[10, 21)` has the keyword `ssn` in its context window, so the US SSN
recognizer boosts the base score 0.5 to `min(0.5 + 0.4, 1.0) = 0.9`;
but the validity of the detection is Invalid, not Valid:
`123456789` is a known test SSN for both validators. -/
theorem ssn_end_to_end_invalid_but_scored :
    usSsnHasContext "My SSN is 123-45-6789".data 10 21 = true ∧
      usSsnAdjustScore (1/2) true = 9/10 ∧
      checkSsnValidity "123-45-6789".data = "invalid" ∧
      invalidateResult "123-45-6789".data = true := by
  refine ⟨by decide, by norm_num [usSsnAdjustScore, pyMin], by decide, by decide⟩

/-- C8 (counterexample): with window size 50 and span `[0, 9)`, a
keyword occurrence starting at offset `end + 50 = 59` is entirely
outside the window `text[0 : 59)`, and so is one starting at
`end + 51 = 60`: moving the occurrence start from `end+W+1` to `end+W`
does not flip `has_context` — it stays `false` at both offsets. -/
theorem context_window_start_offset_no_flip :
    usSsnHasContext (List.replicate 59 '.' ++ "ssn".data) 0 9 = false ∧
      usSsnHasContext (List.replicate 60 '.' ++ "ssn".data) 0 9 = false := by
  constructor
  · decide
  · decide

/-- C8 (amended): the flip happens at the exclusive end of the window: a
keyword whose occurrence ends (exclusively) at `end + W` is inside the
window and flips `has_context` to `true`, while ending at `end + W + 1`
leaves it `false`.  Concretely, for span `[0, 9)`, `W = 50` and keyword
`ssn`, the occurrence starting at 56 (ending at 59) is found and the
occurrence starting at 57 (ending at 60) is not. -/
theorem context_window_exclusive_end_flip :
    usSsnHasContext (List.replicate 56 '.' ++ "ssn".data) 0 9 = true ∧
      usSsnHasContext (List.replicate 57 '.' ++ "ssn".data) 0 9 = false := by
  constructor
  · decide
  · decide

end DLP
